import Mathlib

/-
Verification of the EthicalAV decision core: the base policy table in
ethics_engine.py and the safety refinement layer in rules_adapter.py.

Modelling conventions:
- Python strings are modelled as `List Char`; `str.lower()` is `strLower`
  (character-wise `Char.toLower`), `str.strip()` is `pyStrip`, and
  `str.startswith` is `startswith`.
- Python floats are modelled by exact rationals `ℚ`; decimal literals such
  as `1.40` denote the corresponding rational.
- A risk field of the input record is a `RiskInput`: a numeric value, a
  present-but-non-numeric value (on which Python `float` raises, caught by
  the bare `except`), or a missing key (for which `dict.get` supplies the
  default `0.0`).
- `child_present` and `speed_kph` are integers, as produced by `int(...)`
  on the documented 0/1 and integer fields.
-/

/-- Lowercasing of a Python string, as done by `str.lower()`. -/
def strLower (s : List Char) : List Char := s.map Char.toLower

/-- Python `str.strip()`: drop whitespace from both ends. -/
def pyStrip (s : List Char) : List Char :=
  ((s.dropWhile Char.isWhitespace).reverse.dropWhile Char.isWhitespace).reverse

/-- Python `s.startswith(p)`: `startswith s p` is true when `p` is an initial
segment of `s`. -/
def startswith : List Char → List Char → Bool
  | _, [] => true
  | [], _ :: _ => false
  | c :: s, p :: ps => p == c && startswith s ps

/-- One risk field of the raw scenario record: a numeric value, a present but
non-numeric value (Python `float` raises), or a missing key (the `dict.get`
default `0.0` applies). -/
inductive RiskInput where
  | num (v : ℚ)
  | nonNumeric
  | missing
deriving DecidableEq, Repr

/-- The scenario record consumed by `decide_action`, with the five documented
fields. `name` is the scenario-kind string read by the ethics_engine rules. -/
structure ScenarioRecord where
  name : List Char
  child_present : ℤ
  left_risk : RiskInput
  right_risk : RiskInput
  speed_kph : ℤ

/-- ethics_engine.utilitarian_decision: branch on the scenario name. -/
def utilitarian_decision (data : ScenarioRecord) : List Char :=
  if data.name = "car_vs_pedestrian".toList then "swerve_left".toList
  else if data.name = "car_vs_car".toList then "swerve_left".toList
  else if data.name = "pedestrian_vs_pedestrian".toList then "brake".toList
  else "straight".toList

/-- ethics_engine.deontological_decision: branch on the scenario name. -/
def deontological_decision (data : ScenarioRecord) : List Char :=
  if data.name = "car_vs_pedestrian".toList then "brake".toList
  else if data.name = "car_vs_car".toList then "brake".toList
  else if data.name = "pedestrian_vs_pedestrian".toList then "brake".toList
  else "straight".toList

/-- ethics_engine.virtue_ethics_decision: branch on the scenario name. -/
def virtue_ethics_decision (data : ScenarioRecord) : List Char :=
  if data.name = "car_vs_pedestrian".toList then "swerve_left".toList
  else if data.name = "car_vs_car".toList then "slow down".toList
  else if data.name = "pedestrian_vs_pedestrian".toList then "brake".toList
  else "straight".toList

/-- rules_adapter._norm: `none` models a `None` action; otherwise strip,
lowercase, and rewrite the two legacy spellings. -/
def normLabel : Option (List Char) → List Char
  | none => "brake".toList
  | some s =>
    if strLower (pyStrip s) = "straight".toList then "hold_lane".toList
    else if strLower (pyStrip s) = "slow down".toList then "slow_down".toList
    else strLower (pyStrip s)

/-- rules_adapter._riskify: numeric values are clamped into [0, 1]; a failed
`float(...)` conversion (non-numeric) yields 0; a missing key takes the
`dict.get` default 0.0, which clamps to 0. -/
def riskify : RiskInput → ℚ
  | .num v => min (max v 0) 1
  | .nonNumeric => 0
  | .missing => 0

/-- The exact mode string "utilitarian" matched by rules_adapter._base_decision. -/
def utilitarianStr : List Char := ['u', 't', 'i', 'l', 'i', 't', 'a', 'r', 'i', 'a', 'n']

/-- The exact mode string "deontological" matched by rules_adapter._base_decision. -/
def deontologicalStr : List Char := ['d', 'e', 'o', 'n', 't', 'o', 'l', 'o', 'g', 'i', 'c', 'a', 'l']

/-- The mode key "util" tested with `startswith` in decide_action. -/
def utilKey : List Char := ['u', 't', 'i', 'l']

/-- The mode key "deon" tested with `startswith` in decide_action. -/
def deonKey : List Char := ['d', 'e', 'o', 'n']

/-- rules_adapter._base_decision: dispatch on the exact (already lowercased)
mode string, defaulting to the virtue rules, and normalize the result. -/
def base_decision (mode : List Char) (data : ScenarioRecord) : List Char :=
  if mode = utilitarianStr then normLabel (some (utilitarian_decision data))
  else if mode = deontologicalStr then normLabel (some (deontological_decision data))
  else normLabel (some (virtue_ethics_decision data))

/-- The speed penalty `(speed/120.0)*0.10` of decide_action step 1. -/
def speedPenalty (speed : ℤ) : ℚ := ((speed : ℚ) / 120.0) * 0.10

/-- `left_eff = min(1.0, left_r + (speed/120.0)*0.10)` from decide_action. -/
def leftEff (data : ScenarioRecord) : ℚ :=
  min 1.0 (riskify data.left_risk + speedPenalty data.speed_kph)

/-- `right_eff = min(1.0, right_r + (speed/120.0)*0.10)` from decide_action. -/
def rightEff (data : ScenarioRecord) : ℚ :=
  min 1.0 (riskify data.right_risk + speedPenalty data.speed_kph)

/-- Threshold constant HIGH_SPEED = 45 from decide_action. -/
def HIGH_SPEED : ℤ := 45

/-- Threshold constant VERY_HIGH_TOTAL = 1.40 from decide_action. -/
def VERY_HIGH_TOTAL : ℚ := 1.40

/-- Threshold constant HIGH_SIDE_RISK = 0.75 from decide_action. -/
def HIGH_SIDE_RISK : ℚ := 0.75

/-- Threshold constant MEANINGFUL_DIFF = 0.15 from decide_action. -/
def MEANINGFUL_DIFF : ℚ := 0.15

/-- The first child-protection branch of decide_action: with a child present,
a `swerve_left` base toward the strictly riskier left side becomes `brake`. -/
def childVetoLeft (child : ℤ) (leff reff : ℚ) (base : List Char) : List Char :=
  if child = 1 ∧ leff > reff ∧ base = "swerve_left".toList then "brake".toList
  else base

/-- Both sequential child-protection branches of decide_action: the second
branch tests the value of `base` after the first branch ran. -/
def childVeto (child : ℤ) (leff reff : ℚ) (base : List Char) : List Char :=
  if child = 1 ∧ reff > leff ∧ childVetoLeft child leff reff base = "swerve_right".toList
  then "brake".toList
  else childVetoLeft child leff reff base

/-- The utilitarian refinement block of decide_action. -/
def utilRefine (leff reff : ℚ) (base : List Char) : List Char :=
  if max leff reff < 0.30 ∧ |leff - reff| < MEANINGFUL_DIFF then "hold_lane".toList
  else if leff < reff - MEANINGFUL_DIFF then "swerve_left".toList
  else if reff < leff - MEANINGFUL_DIFF then "swerve_right".toList
  else if max leff reff ≥ HIGH_SIDE_RISK then "brake".toList
  else base

/-- The deontological refinement block of decide_action. -/
def deonRefine (child : ℤ) (leff reff : ℚ) (base : List Char) : List Char :=
  if max leff reff ≥ HIGH_SIDE_RISK then "brake".toList
  else if child = 1 then "brake".toList
  else if |leff - reff| ≥ MEANINGFUL_DIFF ∧ max leff reff < HIGH_SIDE_RISK then "hold_lane".toList
  else if base = "brake".toList then "brake".toList
  else "hold_lane".toList

/-- The virtue refinement block of decide_action; it never reads `base`. -/
def virtueRefine (child : ℤ) (leff reff : ℚ) : List Char :=
  if child = 1 ∨ max leff reff ≥ 0.40 then "slow_down".toList
  else if |leff - reff| ≥ MEANINGFUL_DIFF ∧ max leff reff < 0.50 then
    (if leff < reff then "swerve_left".toList else "swerve_right".toList)
  else "hold_lane".toList

/-- rules_adapter.decide_action: lowercase the mode, take the base decision,
apply the universal override, the child veto, and the mode-specific
refinement selected by `startswith` on the lowered mode. -/
def decide_action (mode : List Char) (data : ScenarioRecord) : List Char :=
  if leftEff data + rightEff data ≥ VERY_HIGH_TOTAL ∨ data.speed_kph ≥ HIGH_SPEED then
    "brake".toList
  else if startswith (strLower mode) utilKey then
    utilRefine (leftEff data) (rightEff data)
      (childVeto data.child_present (leftEff data) (rightEff data)
        (base_decision (strLower mode) data))
  else if startswith (strLower mode) deonKey then
    deonRefine data.child_present (leftEff data) (rightEff data)
      (childVeto data.child_present (leftEff data) (rightEff data)
        (base_decision (strLower mode) data))
  else
    virtueRefine data.child_present (leftEff data) (rightEff data)

/-- A true `startswith` exposes the head of the string. -/
theorem startswith_cons (m : List Char) (p : Char) (ps : List Char)
    (h : startswith m (p :: ps) = true) : ∃ t, m = p :: t ∧ startswith t ps = true := by
  cases m with
  | nil => simp [startswith] at h
  | cons c t =>
    rw [startswith, Bool.and_eq_true, beq_iff_eq] at h
    exact ⟨t, by rw [h.1], h.2⟩

/-- A string starting with "deon" does not start with "util". -/
theorem startswith_deon_not_util (m : List Char)
    (h : startswith m deonKey = true) : startswith m utilKey = false := by
  obtain ⟨t, rfl, -⟩ := startswith_cons m 'd' ['e', 'o', 'n'] h
  simp [startswith, utilKey, show ('u' == 'd') = false from by decide]

/-- A string starting with "util" is not the string "deontological". -/
theorem startswith_util_ne_deontological (m : List Char)
    (h : startswith m utilKey = true) : m ≠ deontologicalStr := by
  intro heq
  rw [heq, show startswith deontologicalStr utilKey = false from by decide] at h
  exact Bool.noConfusion h

/-- A string starting with "deon" is not the string "utilitarian". -/
theorem startswith_deon_ne_utilitarian (m : List Char)
    (h : startswith m deonKey = true) : m ≠ utilitarianStr := by
  intro heq
  rw [heq, show startswith utilitarianStr deonKey = false from by decide] at h
  exact Bool.noConfusion h

/-- A string not starting with "util" is not the string "utilitarian". -/
theorem ne_utilitarian_of_not_util (m : List Char)
    (h : startswith m utilKey = false) : m ≠ utilitarianStr := by
  intro heq
  rw [heq, show startswith utilitarianStr utilKey = true from by decide] at h
  exact Bool.noConfusion h

/-- A string not starting with "deon" is not the string "deontological". -/
theorem ne_deontological_of_not_deon (m : List Char)
    (h : startswith m deonKey = false) : m ≠ deontologicalStr := by
  intro heq
  rw [heq, show startswith deontologicalStr deonKey = true from by decide] at h
  exact Bool.noConfusion h

/-- The base decision is always one of the four normalized engine outputs. -/
theorem base_decision_mem (mode : List Char) (data : ScenarioRecord) :
    base_decision mode data = "swerve_left".toList ∨
    base_decision mode data = "brake".toList ∨
    base_decision mode data = "hold_lane".toList ∨
    base_decision mode data = "slow_down".toList := by
  unfold base_decision utilitarian_decision deontological_decision virtue_ethics_decision
  split_ifs <;> decide

/-- The child veto either forces "brake" or leaves the base action unchanged. -/
theorem childVeto_eq_brake_or_base (child : ℤ) (leff reff : ℚ) (base : List Char) :
    childVeto child leff reff base = "brake".toList ∨
    childVeto child leff reff base = base := by
  unfold childVeto childVetoLeft
  split_ifs <;> simp

/-- base_decision at the exact mode "utilitarian" uses the utilitarian rules. -/
theorem base_decision_util (data : ScenarioRecord) :
    base_decision utilitarianStr data = normLabel (some (utilitarian_decision data)) := by
  unfold base_decision
  rw [if_pos rfl]

/-- base_decision at the exact mode "deontological" uses the deontological rules. -/
theorem base_decision_deon (data : ScenarioRecord) :
    base_decision deontologicalStr data = normLabel (some (deontological_decision data)) := by
  unfold base_decision
  rw [if_neg (by decide), if_pos rfl]

/-- base_decision at any other mode string uses the virtue rules. -/
theorem base_decision_other (mode : List Char) (h1 : mode ≠ utilitarianStr)
    (h2 : mode ≠ deontologicalStr) (data : ScenarioRecord) :
    base_decision mode data = normLabel (some (virtue_ethics_decision data)) := by
  unfold base_decision
  rw [if_neg h1, if_neg h2]

/-- The utilitarian rule returns "straight" on an unknown scenario name. -/
theorem utilitarian_decision_unknown (data : ScenarioRecord)
    (h1 : data.name ≠ "car_vs_pedestrian".toList) (h2 : data.name ≠ "car_vs_car".toList)
    (h3 : data.name ≠ "pedestrian_vs_pedestrian".toList) :
    utilitarian_decision data = "straight".toList := by
  unfold utilitarian_decision
  rw [if_neg h1, if_neg h2, if_neg h3]

/-- The deontological rule returns "straight" on an unknown scenario name. -/
theorem deontological_decision_unknown (data : ScenarioRecord)
    (h1 : data.name ≠ "car_vs_pedestrian".toList) (h2 : data.name ≠ "car_vs_car".toList)
    (h3 : data.name ≠ "pedestrian_vs_pedestrian".toList) :
    deontological_decision data = "straight".toList := by
  unfold deontological_decision
  rw [if_neg h1, if_neg h2, if_neg h3]

/-- The virtue rule returns "straight" on an unknown scenario name. -/
theorem virtue_ethics_decision_unknown (data : ScenarioRecord)
    (h1 : data.name ≠ "car_vs_pedestrian".toList) (h2 : data.name ≠ "car_vs_car".toList)
    (h3 : data.name ≠ "pedestrian_vs_pedestrian".toList) :
    virtue_ethics_decision data = "straight".toList := by
  unfold virtue_ethics_decision
  rw [if_neg h1, if_neg h2, if_neg h3]

example :
    decide_action "utilitarian".toList
      ⟨"car_vs_pedestrian".toList, 0, .num 0.3, .num 0.6, 30⟩ = "swerve_left".toList := by
  norm_num +decide [decide_action, childVeto, childVetoLeft, utilRefine, leftEff, rightEff,
    riskify, speedPenalty, min_def, max_def, abs_eq_max_neg,
    VERY_HIGH_TOTAL, HIGH_SPEED, HIGH_SIDE_RISK, MEANINGFUL_DIFF,
    show strLower "utilitarian".toList = utilitarianStr from by decide,
    show startswith utilitarianStr utilKey = true from by decide,
    show base_decision utilitarianStr
      ⟨"car_vs_pedestrian".toList, 0, .num 0.3, .num 0.6, 30⟩ = "swerve_left".toList from by decide]

example :
    decide_action "deontological".toList
      ⟨"car_vs_pedestrian".toList, 0, .num 0.3, .num 0.6, 30⟩ = "hold_lane".toList := by
  norm_num +decide [decide_action, childVeto, childVetoLeft, deonRefine, leftEff, rightEff,
    riskify, speedPenalty, min_def, max_def, abs_eq_max_neg,
    VERY_HIGH_TOTAL, HIGH_SPEED, HIGH_SIDE_RISK, MEANINGFUL_DIFF,
    show strLower "deontological".toList = deontologicalStr from by decide,
    show startswith deontologicalStr utilKey = false from by decide,
    show startswith deontologicalStr deonKey = true from by decide,
    show base_decision deontologicalStr
      ⟨"car_vs_pedestrian".toList, 0, .num 0.3, .num 0.6, 30⟩ = "brake".toList from by decide]

example :
    decide_action "virtue".toList
      ⟨"car_vs_pedestrian".toList, 0, .num 0.3, .num 0.6, 30⟩ = "slow_down".toList := by
  norm_num +decide [decide_action, virtueRefine, leftEff, rightEff,
    riskify, speedPenalty, min_def, max_def, abs_eq_max_neg,
    VERY_HIGH_TOTAL, HIGH_SPEED, HIGH_SIDE_RISK, MEANINGFUL_DIFF,
    show strLower "virtue".toList = "virtue".toList from by decide,
    show startswith "virtue".toList utilKey = false from by decide,
    show startswith "virtue".toList deonKey = false from by decide]

example :
    decide_action "utilitarian".toList
      ⟨"car_vs_car".toList, 1, .num 0.8, .num 0.2, 50⟩ = "brake".toList := by
  norm_num +decide [decide_action, leftEff, rightEff,
    riskify, speedPenalty, min_def, max_def, VERY_HIGH_TOTAL, HIGH_SPEED]

example :
    decide_action "utilitarian".toList
      ⟨"pedestrian_vs_pedestrian".toList, 0, .num 0.1, .num 0.1, 10⟩ = "hold_lane".toList := by
  norm_num +decide [decide_action, childVeto, childVetoLeft, utilRefine, leftEff, rightEff,
    riskify, speedPenalty, min_def, max_def, abs_eq_max_neg,
    VERY_HIGH_TOTAL, HIGH_SPEED, HIGH_SIDE_RISK, MEANINGFUL_DIFF,
    show strLower "utilitarian".toList = utilitarianStr from by decide,
    show startswith utilitarianStr utilKey = true from by decide,
    show base_decision utilitarianStr
      ⟨"pedestrian_vs_pedestrian".toList, 0, .num 0.1, .num 0.1, 10⟩ = "brake".toList from by decide]

/-- C1: for every mode string and every scenario record, if the effective
risks of step 1 satisfy left_eff + right_eff >= 1.40, or speed_kph >= 45,
then decide_action returns "brake", regardless of child presence, scenario
kind, or the base action. -/
theorem universal_override_forces_brake (mode : List Char) (data : ScenarioRecord)
    (h : leftEff data + rightEff data ≥ 1.40 ∨ data.speed_kph ≥ 45) :
    decide_action mode data = "brake".toList := by
  unfold decide_action VERY_HIGH_TOTAL HIGH_SPEED
  exact if_pos h

/-- C1 witness: at speed 50 the override fires for the virtue mode. -/
theorem universal_override_forces_brake_witness :
    decide_action "virtue".toList
      ⟨"car_vs_car".toList, 0, .num 0.5, .num 0.5, 50⟩ = "brake".toList :=
  universal_override_forces_brake _ _ (Or.inr (by decide))

/-- C2: for every scenario record and every mode string whose lowercase form
starts with "deon", decide_action never returns "swerve_left" or
"swerve_right". -/
theorem deontological_never_swerves (mode : List Char) (data : ScenarioRecord)
    (h : startswith (strLower mode) deonKey = true) :
    decide_action mode data ≠ "swerve_left".toList ∧
    decide_action mode data ≠ "swerve_right".toList := by
  have hu : startswith (strLower mode) utilKey = false :=
    startswith_deon_not_util _ h
  have hu2 : ¬ (startswith (strLower mode) utilKey = true) := by
    intro hc
    rw [hc] at hu
    exact Bool.noConfusion hu
  refine ⟨?_, ?_⟩ <;>
  · unfold decide_action
    split
    · decide
    unfold deonRefine
    split_ifs <;> decide

/-- C2 witness: a "DEON" mode on a concrete record produces no swerve. -/
theorem deontological_never_swerves_witness :
    decide_action "DEON".toList
      ⟨"car_vs_pedestrian".toList, 0, .num 0.3, .num 0.6, 30⟩ ≠ "swerve_left".toList ∧
    decide_action "DEON".toList
      ⟨"car_vs_pedestrian".toList, 0, .num 0.3, .num 0.6, 30⟩ ≠ "swerve_right".toList :=
  deontological_never_swerves _ _ (by decide)

/-- C10: the right-side child-protection veto is unreachable: for every mode
string and record the base decision is never "swerve_right", hence the full
child veto (both sequential branches) coincides with its first, left-side
branch alone on every reachable base action and every child/risk input. -/
theorem right_child_veto_unreachable (mode : List Char) (data : ScenarioRecord) :
    base_decision mode data ≠ "swerve_right".toList ∧
    ∀ child : ℤ, ∀ leff reff : ℚ,
      childVeto child leff reff (base_decision mode data) =
        childVetoLeft child leff reff (base_decision mode data) := by
  have hb := base_decision_mem mode data
  have hne : base_decision mode data ≠ "swerve_right".toList := by
    rcases hb with h | h | h | h <;> rw [h] <;> decide
  refine ⟨hne, fun child leff reff => ?_⟩
  unfold childVeto
  rw [if_neg]
  rintro ⟨-, -, hc⟩
  unfold childVetoLeft at hc
  split_ifs at hc
  · exact absurd hc (by decide)
  · exact hne hc

/-- C7: for every mode string and every scenario record, decide_action
returns exactly one label from the five-element output vocabulary
brake / hold_lane / swerve_left / swerve_right / slow_down. -/
theorem decide_action_total (mode : List Char) (data : ScenarioRecord) :
    decide_action mode data = "brake".toList ∨
    decide_action mode data = "hold_lane".toList ∨
    decide_action mode data = "swerve_left".toList ∨
    decide_action mode data = "swerve_right".toList ∨
    decide_action mode data = "slow_down".toList := by
  have hb := base_decision_mem (strLower mode) data
  have hv := childVeto_eq_brake_or_base data.child_present (leftEff data) (rightEff data)
    (base_decision (strLower mode) data)
  unfold decide_action
  split
  · simp
  split
  · unfold utilRefine
    split_ifs <;> try simp
    rcases hv with h | h
    · simp [h]
    · rw [h]
      rcases hb with h2 | h2 | h2 | h2 <;> simp [h2]
  split
  · unfold deonRefine
    split_ifs <;> simp
  · unfold virtueRefine
    split_ifs <;> simp

/-- C9: in the virtue branch the scenario kind is irrelevant: for any mode
string whose lowercase form starts with neither "util" nor "deon", two
records that agree on child_present, the risks, and speed_kph but differ in
their name field produce equal decide_action results. -/
theorem virtue_branch_ignores_kind (mode : List Char) (n1 n2 : List Char)
    (child : ℤ) (l r : RiskInput) (speed : ℤ)
    (hu : startswith (strLower mode) utilKey = false)
    (hd : startswith (strLower mode) deonKey = false) :
    decide_action mode ⟨n1, child, l, r, speed⟩ =
      decide_action mode ⟨n2, child, l, r, speed⟩ := by
  unfold decide_action
  rw [hu, hd]
  simp only [Bool.false_eq_true, if_false]
  rfl

/-- C9 witness: a mode of "virtue" ignores the scenario name. -/
theorem virtue_branch_ignores_kind_witness :
    decide_action "virtue".toList ⟨"car_vs_pedestrian".toList, 0, .num 0.3, .num 0.6, 30⟩ =
      decide_action "virtue".toList ⟨"car_vs_car".toList, 0, .num 0.3, .num 0.6, 30⟩ :=
  virtue_branch_ignores_kind _ _ _ _ _ _ _ (by decide) (by decide)

/-- C6: the base policy table is reproduced exactly: car_vs_pedestrian maps
to swerve_left / brake / swerve_left, car_vs_car to swerve_left / brake /
slow_down, pedestrian_vs_pedestrian to brake / brake / brake under the
utilitarian / deontological / virtue modes respectively, and every unknown
scenario kind maps to hold_lane under every mode string. -/
theorem base_policy_table (data : ScenarioRecord) :
    (data.name = "car_vs_pedestrian".toList →
      base_decision utilitarianStr data = "swerve_left".toList ∧
      base_decision deontologicalStr data = "brake".toList ∧
      base_decision "virtue".toList data = "swerve_left".toList) ∧
    (data.name = "car_vs_car".toList →
      base_decision utilitarianStr data = "swerve_left".toList ∧
      base_decision deontologicalStr data = "brake".toList ∧
      base_decision "virtue".toList data = "slow_down".toList) ∧
    (data.name = "pedestrian_vs_pedestrian".toList →
      base_decision utilitarianStr data = "brake".toList ∧
      base_decision deontologicalStr data = "brake".toList ∧
      base_decision "virtue".toList data = "brake".toList) ∧
    (data.name ≠ "car_vs_pedestrian".toList →
      data.name ≠ "car_vs_car".toList →
      data.name ≠ "pedestrian_vs_pedestrian".toList →
      ∀ mode : List Char, base_decision mode data = "hold_lane".toList) := by
  have hv := base_decision_other "virtue".toList (by decide) (by decide)
  refine ⟨fun h => ?_, fun h => ?_, fun h => ?_, fun h1 h2 h3 mode => ?_⟩
  · refine ⟨?_, ?_, ?_⟩
    · rw [base_decision_util data]
      unfold utilitarian_decision
      rw [if_pos h]
      decide
    · rw [base_decision_deon data]
      unfold deontological_decision
      rw [if_pos h]
      decide
    · rw [hv data]
      unfold virtue_ethics_decision
      rw [if_pos h]
      decide
  · refine ⟨?_, ?_, ?_⟩
    · rw [base_decision_util data]
      unfold utilitarian_decision
      rw [if_neg (by rw [h]; decide), if_pos h]
      decide
    · rw [base_decision_deon data]
      unfold deontological_decision
      rw [if_neg (by rw [h]; decide), if_pos h]
      decide
    · rw [hv data]
      unfold virtue_ethics_decision
      rw [if_neg (by rw [h]; decide), if_pos h]
      decide
  · refine ⟨?_, ?_, ?_⟩
    · rw [base_decision_util data]
      unfold utilitarian_decision
      rw [if_neg (by rw [h]; decide), if_neg (by rw [h]; decide), if_pos h]
      decide
    · rw [base_decision_deon data]
      unfold deontological_decision
      rw [if_neg (by rw [h]; decide), if_neg (by rw [h]; decide), if_pos h]
      decide
    · rw [hv data]
      unfold virtue_ethics_decision
      rw [if_neg (by rw [h]; decide), if_neg (by rw [h]; decide), if_pos h]
      decide
  · unfold base_decision
    rw [utilitarian_decision_unknown data h1 h2 h3, deontological_decision_unknown data h1 h2 h3,
      virtue_ethics_decision_unknown data h1 h2 h3]
    split_ifs <;> decide

/-- C6 witness: the table at the concrete record car_vs_car. -/
theorem base_policy_table_witness :
    base_decision utilitarianStr ⟨"car_vs_car".toList, 0, .num 0.2, .num 0.2, 10⟩ =
      "swerve_left".toList ∧
    base_decision deontologicalStr ⟨"car_vs_car".toList, 0, .num 0.2, .num 0.2, 10⟩ =
      "brake".toList ∧
    base_decision "virtue".toList ⟨"car_vs_car".toList, 0, .num 0.2, .num 0.2, 10⟩ =
      "slow_down".toList :=
  (base_policy_table _).2.1 (by decide)

/-- C3 counterexample: an out-of-range numeric risk of 2.0 is clamped to
1.0 by the coercion used in decide_action, not coerced to 0.0. -/
theorem riskify_out_of_range_counterexample :
    riskify (RiskInput.num 2) = 1 ∧ riskify (RiskInput.num 2) ≠ 0 := by
  constructor <;> norm_num [riskify, min_def, max_def]

/-- C3 amended: non-numeric or missing risk inputs coerce to 0.0, while
numeric inputs are clamped into [0.0, 1.0]: values at most 0 coerce to 0,
values at least 1 coerce to 1 (so 2.0 becomes 1.0, not 0.0), in-range
values pass through, and the coerced value always lies in [0, 1]. -/
theorem riskify_coercion :
    riskify RiskInput.nonNumeric = 0 ∧ riskify RiskInput.missing = 0 ∧
    (∀ v : ℚ, v ≤ 0 → riskify (RiskInput.num v) = 0) ∧
    (∀ v : ℚ, 1 ≤ v → riskify (RiskInput.num v) = 1) ∧
    (∀ v : ℚ, 0 ≤ v → v ≤ 1 → riskify (RiskInput.num v) = v) ∧
    (∀ x : RiskInput, 0 ≤ riskify x ∧ riskify x ≤ 1) := by
  refine ⟨rfl, rfl, fun v hv => ?_, fun v hv => ?_, fun v h0 h1 => ?_, fun x => ?_⟩
  · simp only [riskify]
    rw [max_eq_right hv, min_eq_left (by norm_num)]
  · simp only [riskify]
    rw [max_eq_left (le_trans (by norm_num) hv), min_eq_right hv]
  · simp only [riskify]
    rw [max_eq_left h0, min_eq_left h1]
  · cases x with
    | num v =>
      simp only [riskify]
      exact ⟨le_min (le_max_right v 0) (by norm_num), min_le_right _ _⟩
    | nonNumeric => simp [riskify]
    | missing => simp [riskify]

/-- C3 witness: the clamp at 2.0, at -0.5, and the pass-through at 0.3. -/
theorem riskify_coercion_witness :
    riskify (RiskInput.num 2) = 1 ∧ riskify (RiskInput.num (-0.5)) = 0 ∧
    riskify (RiskInput.num 0.3) = 0.3 :=
  ⟨riskify_coercion.2.2.2.1 2 (by norm_num),
   riskify_coercion.2.2.1 (-0.5) (by norm_num),
   riskify_coercion.2.2.2.2.1 0.3 (by norm_num) (by norm_num)⟩

/-- C5 counterexample: the unrecognized action string "foo" normalizes to
itself, not to "brake". -/
theorem normLabel_unrecognized_counterexample :
    normLabel (some "foo".toList) = "foo".toList ∧
    normLabel (some "foo".toList) ≠ "brake".toList := by
  constructor <;> decide

/-- C5 amended: normalization is total; absent input defaults to "brake",
"straight" maps to "hold_lane" and "slow down" to "slow_down", but any
other string is returned stripped and lowercased rather than defaulted to
"brake". -/
theorem normLabel_spec :
    normLabel none = "brake".toList ∧
    normLabel (some "straight".toList) = "hold_lane".toList ∧
    normLabel (some "slow down".toList) = "slow_down".toList ∧
    ∀ s : List Char, strLower (pyStrip s) ≠ "straight".toList →
      strLower (pyStrip s) ≠ "slow down".toList →
      normLabel (some s) = strLower (pyStrip s) := by
  refine ⟨by decide, by decide, by decide, fun s h1 h2 => ?_⟩
  simp only [normLabel]
  rw [if_neg h1, if_neg h2]

/-- C5 witness: the pass-through branch applied to " Swerve_Left ". -/
theorem normLabel_spec_witness :
    normLabel (some " Swerve_Left ".toList) = "swerve_left".toList :=
  (normLabel_spec.2.2.2 " Swerve_Left ".toList (by decide) (by decide)).trans (by decide)

/-- C8 counterexample: with left risk 0.95, right risk 1.0, speed 120 the
min(1.0, ...) clamp saturates both sides: the coerced left risk is strictly
below the coerced right risk, yet the effective risks are equal, so the
strict input ordering is not preserved. -/
theorem speed_penalty_counterexample :
    riskify (RiskInput.num 0.95) < riskify (RiskInput.num 1) ∧
    ¬ (leftEff ⟨"car_vs_car".toList, 0, .num 0.95, .num 1, 120⟩ <
       rightEff ⟨"car_vs_car".toList, 0, .num 0.95, .num 1, 120⟩) := by
  constructor <;> norm_num [riskify, leftEff, rightEff, speedPenalty, min_def, max_def]

/-- C8 amended: the uniform speed penalty is order-preserving in the weak
sense: equal coerced risks give equal effective risks, a strictly smaller
coerced left risk gives left_eff at most right_eff, and the strict ordering
is preserved whenever the penalized larger side does not saturate the
min(1.0, ...) clamp. -/
theorem speed_penalty_monotone (data : ScenarioRecord) :
    (riskify data.left_risk = riskify data.right_risk → leftEff data = rightEff data) ∧
    (riskify data.left_risk < riskify data.right_risk → leftEff data ≤ rightEff data) ∧
    (riskify data.left_risk < riskify data.right_risk →
      riskify data.right_risk + speedPenalty data.speed_kph ≤ 1 →
      leftEff data < rightEff data) := by
  unfold leftEff rightEff
  refine ⟨fun h => by rw [h], fun h => ?_, fun h hcl => ?_⟩
  · exact min_le_min (le_refl 1.0) (by linarith)
  · rw [min_eq_right (by linarith : riskify data.right_risk + speedPenalty data.speed_kph ≤ 1.0),
      min_eq_right (by linarith : riskify data.left_risk + speedPenalty data.speed_kph ≤ 1.0)]
    linarith

/-- C8 witness: risks 0.2 and 0.4 at speed 30 keep a strict ordering. -/
theorem speed_penalty_monotone_witness :
    leftEff ⟨"car_vs_car".toList, 0, .num 0.2, .num 0.4, 30⟩ <
      rightEff ⟨"car_vs_car".toList, 0, .num 0.2, .num 0.4, 30⟩ :=
  (speed_penalty_monotone _).2.2
    (by norm_num [riskify, min_def, max_def])
    (by norm_num [riskify, speedPenalty, min_def, max_def])

/-- C4 counterexample: on the car_vs_car scenario with child 0, risks 0.3
and 0.3, speed 0, the mode "util" is refined from the virtue base table
entry slow_down, while "utilitarian" is refined from the utilitarian table
entry swerve_left, so the prefix mode does not return the same result as
the full mode name. -/
theorem mode_prefix_counterexample :
    decide_action "util".toList ⟨"car_vs_car".toList, 0, .num 0.3, .num 0.3, 0⟩ =
      "slow_down".toList ∧
    decide_action "utilitarian".toList ⟨"car_vs_car".toList, 0, .num 0.3, .num 0.3, 0⟩ =
      "swerve_left".toList ∧
    "slow_down".toList ≠ "swerve_left".toList := by
  refine ⟨?_, ?_, by decide⟩
  · norm_num +decide [decide_action, childVeto, childVetoLeft, utilRefine, leftEff, rightEff,
      riskify, speedPenalty, min_def, max_def, abs_eq_max_neg,
      VERY_HIGH_TOTAL, HIGH_SPEED, HIGH_SIDE_RISK, MEANINGFUL_DIFF,
      show strLower "util".toList = utilKey from by decide,
      show startswith utilKey utilKey = true from by decide,
      show base_decision utilKey ⟨"car_vs_car".toList, 0, .num 0.3, .num 0.3, 0⟩ =
        "slow_down".toList from by decide]
  · norm_num +decide [decide_action, childVeto, childVetoLeft, utilRefine, leftEff, rightEff,
      riskify, speedPenalty, min_def, max_def, abs_eq_max_neg,
      VERY_HIGH_TOTAL, HIGH_SPEED, HIGH_SIDE_RISK, MEANINGFUL_DIFF,
      show strLower "utilitarian".toList = utilitarianStr from by decide,
      show startswith utilitarianStr utilKey = true from by decide,
      show base_decision utilitarianStr ⟨"car_vs_car".toList, 0, .num 0.3, .num 0.3, 0⟩ =
        "swerve_left".toList from by decide]

/-- C4 amended: the mode selector is case-insensitive (two mode strings
with the same lowercase form decide identically); any string whose
lowercase form starts with "util" but is not exactly "utilitarian" behaves
like the mode "util" (utilitarian refinement over the virtue base table),
and symmetrically for "deon"; any mode string starting with neither prefix
behaves exactly like "virtue"; only the exact names select the utilitarian
or deontological base tables. -/
theorem mode_selector_behavior (mode : List Char) (data : ScenarioRecord) :
    (∀ mode2 : List Char, strLower mode = strLower mode2 →
      decide_action mode data = decide_action mode2 data) ∧
    (startswith (strLower mode) utilKey = true → strLower mode ≠ utilitarianStr →
      decide_action mode data = decide_action utilKey data) ∧
    (startswith (strLower mode) deonKey = true → strLower mode ≠ deontologicalStr →
      decide_action mode data = decide_action deonKey data) ∧
    (startswith (strLower mode) utilKey = false → startswith (strLower mode) deonKey = false →
      decide_action mode data = decide_action "virtue".toList data) := by
  refine ⟨fun mode2 h => ?_, fun hsw hne => ?_, fun hsw hne => ?_, fun hun hdn => ?_⟩
  · unfold decide_action
    rw [h]
  · have h1 := base_decision_other (strLower mode) hne (startswith_util_ne_deontological _ hsw)
    have h2 := base_decision_other utilKey (by decide) (by decide)
    unfold decide_action
    rw [show strLower utilKey = utilKey from by decide, hsw,
      show startswith utilKey utilKey = true from by decide, h1 data, h2 data]
    simp
  · have hu := startswith_deon_not_util _ hsw
    have h1 := base_decision_other (strLower mode) (startswith_deon_ne_utilitarian _ hsw) hne
    have h2 := base_decision_other deonKey (by decide) (by decide)
    unfold decide_action
    rw [show strLower deonKey = deonKey from by decide, hsw, hu,
      show startswith deonKey deonKey = true from by decide,
      show startswith deonKey utilKey = false from by decide, h1 data, h2 data]
  · unfold decide_action
    rw [hun, hdn, show strLower "virtue".toList = "virtue".toList from by decide,
      show startswith "virtue".toList utilKey = false from by decide,
      show startswith "virtue".toList deonKey = false from by decide]
    simp

/-- C4 witness: "DeOn" behaves like "deon", and "Custom" like "virtue". -/
theorem mode_selector_behavior_witness :
    decide_action "DeOn".toList ⟨"car_vs_pedestrian".toList, 0, .num 0.3, .num 0.6, 30⟩ =
      decide_action deonKey ⟨"car_vs_pedestrian".toList, 0, .num 0.3, .num 0.6, 30⟩ ∧
    decide_action "Custom".toList ⟨"car_vs_pedestrian".toList, 0, .num 0.3, .num 0.6, 30⟩ =
      decide_action "virtue".toList ⟨"car_vs_pedestrian".toList, 0, .num 0.3, .num 0.6, 30⟩ :=
  ⟨(mode_selector_behavior "DeOn".toList _).2.2.1 (by decide) (by decide),
   (mode_selector_behavior "Custom".toList _).2.2.2 (by decide) (by decide)⟩
